import Mathlib

/-!
A shallow embedding of the verifier-release-comparison analyzer
(`models.py`, `analyze_csv.py`, `settings.py`, `util.py`).

Modelling conventions:
* Python exceptions are modelled with `Except PyErr`; each constructor of
  `PyErr` names the Python exception class it stands for.
* `datetime` timestamps are modelled as integers (`Int`) with the usual total
  order, which is all the source uses of them.
* Remote I/O (the HTTP log store, the OCM API) is modelled by a `FetchWorld`
  oracle giving the outcome of each fetch; regex matching over a downloaded
  log file is modelled by the file carrying its lists of matches.
* Python `set` values are `Finset`; Python's short-circuit evaluation order is
  mirrored by the nesting of `if`/`match`.
-/

/-- Python exception classes that appear in the source. -/
inductive PyErr where
  | typeError
  | valueError
  | keyError
  | jsonDecodeError
  | transportError
  | arithmeticError
  | zeroDivisionError
deriving DecidableEq, Repr

instance {ε α : Type} [DecidableEq ε] [DecidableEq α] : DecidableEq (Except ε α) := fun x y =>
  match x, y with
  | .ok a, .ok b =>
    if h : a = b then .isTrue (by rw [h])
    else .isFalse (fun hc => h (Except.ok.inj hc))
  | .error a, .error b =>
    if h : a = b then .isTrue (by rw [h])
    else .isFalse (fun hc => h (Except.error.inj hc))
  | .ok _, .error _ => .isFalse (fun hc => Except.noConfusion hc)
  | .error _, .ok _ => .isFalse (fun hc => Except.noConfusion hc)

/-- `models.OCMState`: states in which an OCM cluster could be (IntEnum). -/
inductive OCMState where
  | WAITING
  | PENDING
  | VALIDATING
  | INSTALLING
  | READY
  | ERROR
  | UNINSTALLING
  | POWERING_DOWN
  | HIBERNATING
  | RESUMING
  | UNKNOWN
deriving DecidableEq, Repr

/-- The integer value assigned to each `OCMState` member in `models.py`. -/
def OCMState.val : OCMState → Nat
  | .WAITING => 0
  | .PENDING => 1
  | .VALIDATING => 2
  | .INSTALLING => 3
  | .READY => 4
  | .ERROR => 5
  | .UNINSTALLING => 6
  | .POWERING_DOWN => 7
  | .HIBERNATING => 8
  | .RESUMING => 9
  | .UNKNOWN => 100

/-- `models.InFlightState`: states in which an in-flight check could be. -/
inductive InFlightState where
  | PENDING
  | RUNNING
  | PASSED
  | FAILED
deriving DecidableEq, Repr

/-- `models.Outcome`: statistical and error outcomes. -/
inductive Outcome where
  | TRUE_NEGATIVE
  | TRUE_POSITIVE
  | FALSE_NEGATIVE
  | FALSE_POSITIVE
  | ERROR
deriving DecidableEq, Repr

/-- One downloaded per-subnet verifier log file.  Regex matching is abstracted:
the file carries the capture-group matches of `REMOTE_LOG_EGRESS_REGEX_PATTERN`
and `REMOTE_LOG_ERROR_REGEX_PATTERN` over its text. -/
structure LogFile where
  egress_matches : List String
  error_matches : List String
deriving DecidableEq, Repr

/-- The parsed JSON cluster-description document (`desc.json`).  An absent
field models a missing key (Python `KeyError` on access). -/
structure DescDoc where
  subscription_href : Option String
  aws_subnet_ids : Option (List String)
  hypershift_enabled : Option Bool
deriving DecidableEq, Repr

/-- The parsed JSON subscription document returned by the OCM API. -/
structure SubscriptionDoc where
  organization_id : Option String
deriving DecidableEq, Repr

/-- Oracle describing the behaviour of the remote log store and the OCM API
for one record: the result of downloading the per-subnet logs
(`__download_logs`), the description document (`__download_desc`), and a
subscription document (`ocm_client.get`). -/
structure FetchWorld where
  fetchLogs : Except PyErr (List LogFile)
  fetchDesc : Except PyErr DescDoc
  fetchSubscription : String → Except PyErr SubscriptionDoc

/-- `models.ClusterVerifierRecord`: one row of the CSV plus accumulated and
cached state.  The `*_cache` fields model the Python attributes `_desc`,
`_hostedcluster`, `_organization_id` and `_subnet_id_set`. -/
structure ClusterVerifierRecord where
  timestamp : Int
  cid : String
  cname : Option String
  ocm_state : Option OCMState
  ocm_inflight_states : Option (List InFlightState)
  found_verifier_s3_logs : Option Bool
  found_all_tests_passed : Option Bool
  found_egress_failures : Option Bool
  log_download_url : Option String
  reached_states : Finset OCMState
  suspect_deleted : Bool
  desc_cache : Option DescDoc
  hostedcluster_cache : Option Bool
  organization_id_cache : Option String
  subnet_id_set_cache : Option (Finset String)
deriving DecidableEq

/-- `settings.FORCE_FAILURE_ENDPOINTS`. -/
def force_failure_endpoints : Finset String :=
  { "inputs1.osdsecuritylogs.splunkcloud.com:9997",
    "http-inputs-osdsecuritylogs.splunkcloud.com:443" }

namespace ClusterVerifierRecord

/-- `ClusterVerifierRecord.__init__`: a freshly constructed record, with
`reached_states` seeded from `ocm_state` when present, `suspect_deleted`
false, and all caches empty. -/
def init (timestamp : Int) (cid : String) (cname : Option String)
    (ocm_state : Option OCMState)
    (ocm_inflight_states : Option (List InFlightState))
    (found_verifier_s3_logs found_all_tests_passed found_egress_failures : Option Bool)
    (log_download_url : Option String) : ClusterVerifierRecord :=
  { timestamp := timestamp
    cid := cid
    cname := cname
    ocm_state := ocm_state
    ocm_inflight_states := ocm_inflight_states
    found_verifier_s3_logs := found_verifier_s3_logs
    found_all_tests_passed := found_all_tests_passed
    found_egress_failures := found_egress_failures
    log_download_url := log_download_url
    reached_states := match ocm_state with | some s => {s} | none => ∅
    suspect_deleted := false
    desc_cache := none
    hostedcluster_cache := none
    organization_id_cache := none
    subnet_id_set_cache := none }

/-- `ClusterVerifierRecord.is_incomplete`: true iff `cname`, `ocm_state` and
`ocm_inflight_states` are all `None`. -/
def is_incomplete (r : ClusterVerifierRecord) : Bool :=
  r.cname.isNone && r.ocm_state.isNone && r.ocm_inflight_states.isNone

end ClusterVerifierRecord

/-- The set of blocked egress endpoints parsed out of the downloaded logs
(the body of `get_egress_failures` after the download). -/
def egressFailuresOf (logs : List LogFile) : Finset String :=
  logs.foldr (fun f acc => f.egress_matches.toFinset ∪ acc) ∅

/-- The set of error messages parsed out of the downloaded logs
(the body of `get_errors` after the download). -/
def errorsOf (logs : List LogFile) : Finset String :=
  logs.foldr (fun f acc => f.error_matches.toFinset ∪ acc) ∅

namespace ClusterVerifierRecord

/-- `ClusterVerifierRecord.get_outcome`.  Mirrors the Python statement by
statement: the guard evaluates `len(self.ocm_inflight_states)` even when that
attribute is `None` (a `TypeError`), and the apparent-false-positive branch
triggers the log download, whose failure propagates (there is no handler in
`get_outcome`, `get_egress_failures`, `get_errors` or `__download_logs`). -/
def get_outcome (r : ClusterVerifierRecord) (w : FetchWorld) :
    Except PyErr (Option Outcome) :=
  if r.is_incomplete then .ok none
  else if r.reached_states.card = 0 then .ok none
  else
    match r.ocm_inflight_states with
    | none => .error .typeError
    | some ifs =>
      if ifs.length = 0 then .ok none
      else if OCMState.READY ∈ r.reached_states ∧ InFlightState.PASSED ∈ ifs then
        .ok (some .TRUE_NEGATIVE)
      else if OCMState.READY ∉ r.reached_states ∧ InFlightState.PASSED ∉ ifs then
        .ok (some .TRUE_POSITIVE)
      else if OCMState.READY ∉ r.reached_states ∧ InFlightState.PASSED ∈ ifs then
        .ok (some .FALSE_NEGATIVE)
      else if OCMState.READY ∈ r.reached_states ∧ InFlightState.PASSED ∉ ifs then
        match w.fetchLogs with
        | .error e => .error e
        | .ok logs =>
          if 0 < (egressFailuresOf logs ∩ force_failure_endpoints).card then
            .ok (some .TRUE_POSITIVE)
          else if 0 < (errorsOf logs).card then .ok (some .ERROR)
          else .ok (some .FALSE_POSITIVE)
      else .ok none

/-- `ClusterVerifierRecord.__gt__`: newer wins; on an exact timestamp tie the
`OCMState` values are compared, which raises (`TypeError` caught and re-raised
as `ArithmeticError`) when either state is `None`.  Differing cluster IDs also
raise `ArithmeticError`. -/
def gtRec (x y : ClusterVerifierRecord) : Except PyErr Bool :=
  if x.cid ≠ y.cid then .error .arithmeticError
  else if y.timestamp < x.timestamp then .ok true
  else if y.timestamp ≤ x.timestamp then
    match x.ocm_state, y.ocm_state with
    | some a, some b => .ok (decide (b.val < a.val))
    | _, _ => .error .arithmeticError
  else .ok false

/-- The body of `__add__` once `max`/`min` have been decided: `bGTa` is the
value of `other > self` (so `greater = max(self, other)` is `b` iff `bGTa`,
and `lesser = min(self, other)` is the other one, because
`__lt__ = not __gt__`). -/
def mergeResult (a b : ClusterVerifierRecord) (bGTa : Bool) : ClusterVerifierRecord :=
  let greater := if bGTa then b else a
  let lesser := if bGTa then a else b
  if greater.is_incomplete && !lesser.is_incomplete then
    { lesser with suspect_deleted := true, timestamp := greater.timestamp }
  else
    { greater with
      reached_states := greater.reached_states ∪ lesser.reached_states,
      hostedcluster_cache :=
        greater.hostedcluster_cache.orElse fun _ => lesser.hostedcluster_cache,
      organization_id_cache :=
        greater.organization_id_cache.orElse fun _ => lesser.organization_id_cache,
      desc_cache := greater.desc_cache.orElse fun _ => lesser.desc_cache,
      subnet_id_set_cache :=
        greater.subnet_id_set_cache.orElse fun _ => lesser.subnet_id_set_cache }

/-- `ClusterVerifierRecord.__add__` (merge).  `max(self, other)` keeps `other`
exactly when `other > self`, and `min(self, other)` keeps `other` exactly when
`not (other > self)`, as CPython's `max`/`min` evaluate them via `__gt__` and
`__lt__ = not __gt__`; a comparison failure propagates. -/
def add (a b : ClusterVerifierRecord) : Except PyErr ClusterVerifierRecord :=
  match gtRec b a with
  | .error e => .error e
  | .ok bGTa => .ok (mergeResult a b bGTa)

/-- The result of `__download_desc`: the cached document if present, else the
remote fetch, whose failure (transport error or `JSONDecodeError` from
`.json()`) is raised to the caller of `__download_desc`. -/
def download_desc (r : ClusterVerifierRecord) (w : FetchWorld) : Except PyErr DescDoc :=
  match r.desc_cache with
  | some d => .ok d
  | none => w.fetchDesc

/-- `ClusterVerifierRecord.get_organization_id`.  `__download_desc` is called
before the `try` block, so its failures propagate unchanged; inside the block,
a missing `subscription.href` key, a malformed subscription JSON
(`JSONDecodeError`) or a missing `organization_id` key are re-raised as
`ValueError`, while a transport failure of the OCM fetch is not caught. -/
def get_organization_id (r : ClusterVerifierRecord) (w : FetchWorld) :
    Except PyErr String :=
  match r.organization_id_cache with
  | some o => .ok o
  | none =>
    match r.download_desc w with
    | .error e => .error e
    | .ok d =>
      match d.subscription_href with
      | none => .error .valueError
      | some href =>
        match w.fetchSubscription href with
        | .error .jsonDecodeError => .error .valueError
        | .error e => .error e
        | .ok sub =>
          match sub.organization_id with
          | none => .error .valueError
          | some oid => .ok oid

/-- `ClusterVerifierRecord.get_subnet_id_set`.  The whole body sits in a
`try` that catches `JSONDecodeError` and `KeyError` and falls through to
returning the (still-`None`) cache; any other fetch failure propagates. -/
def get_subnet_id_set (r : ClusterVerifierRecord) (w : FetchWorld) :
    Except PyErr (Option (Finset String)) :=
  match r.subnet_id_set_cache with
  | some s => .ok (some s)
  | none =>
    match r.download_desc w with
    | .error .jsonDecodeError => .ok none
    | .error e => .error e
    | .ok d =>
      match d.aws_subnet_ids with
      | none => .ok none
      | some l => .ok (some l.toFinset)

/-- `ClusterVerifierRecord.is_hostedcluster`.  Same `try`/`except` shape as
`get_subnet_id_set`, reading `desc["hypershift"]["enabled"]`. -/
def is_hostedcluster (r : ClusterVerifierRecord) (w : FetchWorld) :
    Except PyErr (Option Bool) :=
  match r.hostedcluster_cache with
  | some h => .ok (some h)
  | none =>
    match r.download_desc w with
    | .error .jsonDecodeError => .ok none
    | .error e => .error e
    | .ok d =>
      match d.hypershift_enabled with
      | none => .ok none
      | some b => .ok (some b)

end ClusterVerifierRecord

/-! ## Ingestion (`from_dict` and the CSV loop of `analyze_csv.py`) -/

/-- Python `str.lower` on one character (ASCII, which is all the compared
sentinels use). -/
def pyLowerChar (c : Char) : Char :=
  if 'A' ≤ c ∧ c ≤ 'Z' then Char.ofNat (c.toNat + 32) else c

/-- Python `str.upper` on one character (ASCII). -/
def pyUpperChar (c : Char) : Char :=
  if 'a' ≤ c ∧ c ≤ 'z' then Char.ofNat (c.toNat - 32) else c

/-- Python `str.strip()`: drop leading and trailing whitespace. -/
def pyStrip (s : String) : String :=
  ⟨((s.data.dropWhile Char.isWhitespace).reverse.dropWhile Char.isWhitespace).reverse⟩

/-- Python `str.lower()`. -/
def pyToLower (s : String) : String := ⟨s.data.map pyLowerChar⟩

/-- Python `str.upper()`. -/
def pyToUpper (s : String) : String := ⟨s.data.map pyUpperChar⟩

/-- `util.is_nully_str` restricted to strings (its argument in `from_dict` is
always a CSV cell): lower-case, strip, then compare against the sentinels. -/
def is_nully_str (s : String) : Bool :=
  let t := pyStrip (pyToLower s)
  t = "" || t = "null"

/-- `util.csv_bool_to_bool`. -/
def csv_bool_to_bool (s : String) : Option Bool :=
  if pyToLower (pyStrip s) = "true" then some true
  else if pyToLower (pyStrip s) = "false" then some false
  else none

/-- Python `OCMState[name]` (enum lookup by member name; raises `KeyError`
for an unrecognized name, modelled by `none`). -/
def OCMState.fromName : String → Option OCMState
  | "WAITING" => some .WAITING
  | "PENDING" => some .PENDING
  | "VALIDATING" => some .VALIDATING
  | "INSTALLING" => some .INSTALLING
  | "READY" => some .READY
  | "ERROR" => some .ERROR
  | "UNINSTALLING" => some .UNINSTALLING
  | "POWERING_DOWN" => some .POWERING_DOWN
  | "HIBERNATING" => some .HIBERNATING
  | "RESUMING" => some .RESUMING
  | "UNKNOWN" => some .UNKNOWN
  | _ => none

/-- Python `InFlightState(value)` (enum lookup by value; raises `ValueError`
for an unrecognized value, modelled by `none`). -/
def InFlightState.fromValue : String → Option InFlightState
  | "pending" => some .PENDING
  | "running" => some .RUNNING
  | "passed" => some .PASSED
  | "failed" => some .FAILED
  | _ => none

/-- One row handed to `from_dict` by `csv.DictReader`: each field is `none`
when the column is missing from the CSV (accessing it raises `KeyError`). -/
structure RawRow where
  timestamp : Option String
  cid : Option String
  cname : Option String
  found_verifier_s3_logs : Option String
  found_all_tests_passed : Option String
  found_egress_failures : Option String
  ocm_state : Option String
  ocm_inflight_states : Option String
  log_download_url : Option String
deriving DecidableEq, Repr

/-- The two stdlib parsers `from_dict` delegates to, and the URL validator
regex of `util.is_valid_url`; all three live outside this repository, so they
enter the model as parameters.  `parse_timestamp` stands for
`datetime.fromisoformat` after the `"Z" -> "+00:00"` replacement (`none` =
`ValueError`); `parse_json_list` stands for `json.loads` producing a list of
strings (`none` = `JSONDecodeError`). -/
structure ParseEnv where
  parse_timestamp : String → Option Int
  parse_json_list : String → Option (List String)
  is_valid_url : String → Bool

/-- Fetch a key from the row dictionary: a missing key raises `KeyError`. -/
def RawRow.getKey (v : Option String) : Except PyErr String :=
  match v with
  | none => .error .keyError
  | some s => .ok s

/-- `ClusterVerifierRecord.from_dict`, in the Python evaluation order:
timestamp, cid, the optional-field block, then the strictly-typed fields.
An unrecognized `ocm_state` name raises `KeyError` (enum lookup); an
unparseable timestamp or a nully cid raises `ValueError`; unparseable
in-flight JSON raises `JSONDecodeError`; an unrecognized in-flight value
raises `ValueError`. -/
def from_dict (p : ParseEnv) (row : RawRow) : Except PyErr ClusterVerifierRecord := do
  let tsStr ← RawRow.getKey row.timestamp
  let ts ←
    match p.parse_timestamp tsStr with
    | none => Except.error PyErr.valueError
    | some t => Except.ok t
  let cidRaw ← RawRow.getKey row.cid
  let cid := pyStrip cidRaw
  if is_nully_str cid then Except.error PyErr.valueError
  else do
    let cnameRaw ← RawRow.getKey row.cname
    let cname := if is_nully_str cnameRaw then none else some (pyStrip cnameRaw)
    let fvsl ← RawRow.getKey row.found_verifier_s3_logs
    let fatp ← RawRow.getKey row.found_all_tests_passed
    let fef ← RawRow.getKey row.found_egress_failures
    let ocmStateStr ← (RawRow.getKey row.ocm_state).map (fun s => pyStrip (pyToUpper s))
    let inflightStr ← (RawRow.getKey row.ocm_inflight_states).map pyStrip
    let ocmState ←
      if is_nully_str ocmStateStr then Except.ok none
      else
        match OCMState.fromName ocmStateStr with
        | none => Except.error PyErr.keyError
        | some s => Except.ok (some s)
    let inflight ←
      if is_nully_str inflightStr then Except.ok none
      else do
        let raw ← RawRow.getKey row.ocm_inflight_states
        match p.parse_json_list raw with
        | none => Except.error PyErr.jsonDecodeError
        | some items =>
          match items.mapM InFlightState.fromValue with
          | none => Except.error PyErr.valueError
          | some l => Except.ok (some l)
    let urlRaw ← RawRow.getKey row.log_download_url
    let url := if p.is_valid_url urlRaw then some urlRaw else none
    Except.ok (ClusterVerifierRecord.init ts cid cname ocmState inflight
      (csv_bool_to_bool fvsl) (csv_bool_to_bool fatp) (csv_bool_to_bool fef) url)

/-- Look a cluster ID up in the accumulator table. -/
def tableGet (t : List (String × ClusterVerifierRecord)) (k : String) :
    Option ClusterVerifierRecord :=
  (t.find? (fun kv => kv.1 = k)).map Prod.snd

/-- Store a record under its cluster ID, replacing any previous entry. -/
def tablePut (t : List (String × ClusterVerifierRecord)) (k : String)
    (v : ClusterVerifierRecord) : List (String × ClusterVerifierRecord) :=
  match t with
  | [] => [(k, v)]
  | kv :: rest => if kv.1 = k then (k, v) :: rest else kv :: tablePut rest k v

/-- One iteration of the CSV ingestion loop of `analyze_csv.py` (with the
default arguments, under which the date filter passes every row and no
hosted-cluster filter runs): `from_dict` is wrapped in `try/except KeyError`
which warns and continues, so a row failing with any other exception
propagates it out of the loop; a parsed record is merged into the accumulator
via `cvrs[cvr.cid] += cvr`. -/
def ingest_step (p : ParseEnv) (cvrs : List (String × ClusterVerifierRecord))
    (row : RawRow) : Except PyErr (List (String × ClusterVerifierRecord)) :=
  match from_dict p row with
  | .error .keyError => .ok cvrs
  | .error e => .error e
  | .ok cvr =>
    match tableGet cvrs cvr.cid with
    | none => .ok (tablePut cvrs cvr.cid cvr)
    | some old =>
      match old.add cvr with
      | .error e => .error e
      | .ok merged => .ok (tablePut cvrs cvr.cid merged)

/-- The whole ingestion loop over the CSV rows. -/
def ingest (p : ParseEnv) (cvrs : List (String × ClusterVerifierRecord))
    (rows : List RawRow) : Except PyErr (List (String × ClusterVerifierRecord)) :=
  match rows with
  | [] => .ok cvrs
  | row :: rest =>
    match ingest_step p cvrs row with
    | .error e => .error e
    | .ok cvrs' => ingest p cvrs' rest

/-! ## Metrics (`analyze_csv.py`, statistical measures block) -/

/-- The metric computations of `analyze_csv.py` under `--count=cluster_id`,
in source order (`fpr`, then `precision`, then `frustration_risk`); each
division raises `ZeroDivisionError` when its denominator is zero, and no
handler exists around this block. -/
def compute_metrics (tp tn fp fn : Nat) : Except PyErr (ℚ × ℚ × ℚ) :=
  if fp + tn = 0 then .error .zeroDivisionError
  else if tp + fp = 0 then .error .zeroDivisionError
  else if tp + tn + fp + fn = 0 then .error .zeroDivisionError
  else
    .ok ((fp : ℚ) / ((fp : ℚ) + (tn : ℚ)),
         (tp : ℚ) / ((tp : ℚ) + (fp : ℚ)),
         (fp : ℚ) / ((tp : ℚ) + (tn : ℚ) + (fp : ℚ) + (fn : ℚ)))

/-! ## The spec's decision procedure (for the refinement claim about
`get_outcome`), written from the spec's words -/

/-- The ordered, first-match-wins decision procedure of the spec, §4.2, for a
record already known to be classifiable (complete, non-empty `reached_states`,
non-empty `in_flight_check_states`), given the fetched egress failures and
parsed error messages. -/
def specDecisionProcedure (reached : Finset OCMState) (ifs : List InFlightState)
    (egress errs : Finset String) : Outcome :=
  if OCMState.READY ∈ reached ∧ InFlightState.PASSED ∈ ifs then .TRUE_NEGATIVE
  else if OCMState.READY ∉ reached ∧ InFlightState.PASSED ∉ ifs then .TRUE_POSITIVE
  else if OCMState.READY ∉ reached ∧ InFlightState.PASSED ∈ ifs then .FALSE_NEGATIVE
  else if (egress ∩ force_failure_endpoints).Nonempty then .TRUE_POSITIVE
  else if errs.Nonempty then .ERROR
  else .FALSE_POSITIVE

/-! ## Helper lemmas about the record ordering and the merge -/

namespace ClusterVerifierRecord

theorem gtRec_ok_cid {x y : ClusterVerifierRecord} {bv : Bool}
    (h : x.gtRec y = .ok bv) : x.cid = y.cid := by
  by_contra hne
  simp [gtRec, hne] at h

theorem gtRec_ok_true_le {x y : ClusterVerifierRecord}
    (h : x.gtRec y = .ok true) : y.timestamp ≤ x.timestamp := by
  by_contra h'
  push_neg at h'
  have hcid := gtRec_ok_cid h
  unfold gtRec at h
  rw [if_neg (by simp [hcid]), if_neg (not_lt.mpr h'.le), if_neg (not_le.mpr h')] at h
  simp at h

theorem gtRec_ok_false_le {x y : ClusterVerifierRecord}
    (h : x.gtRec y = .ok false) : x.timestamp ≤ y.timestamp := by
  by_contra h'
  push_neg at h'
  have hcid := gtRec_ok_cid h
  unfold gtRec at h
  rw [if_neg (by simp [hcid]), if_pos h'] at h
  simp at h

theorem gtRec_ok_ts_eq_states {x y : ClusterVerifierRecord} {bv : Bool}
    (h : x.gtRec y = .ok bv) (heq : x.timestamp = y.timestamp) :
    x.ocm_state.isSome ∧ y.ocm_state.isSome := by
  have hcid := gtRec_ok_cid h
  unfold gtRec at h
  rw [if_neg (by simp [hcid]), if_neg (by rw [heq]; exact lt_irrefl _),
    if_pos (le_of_eq heq.symm)] at h
  cases hx : x.ocm_state <;> cases hy : y.ocm_state <;> rw [hx, hy] at h <;>
    simp_all

theorem gtRec_ok_true_iff {x y : ClusterVerifierRecord} {bv : Bool}
    (h : x.gtRec y = .ok bv) :
    bv = true ↔ (y.timestamp < x.timestamp ∨
      (x.timestamp = y.timestamp ∧ ∃ sx sy, x.ocm_state = some sx ∧
        y.ocm_state = some sy ∧ sy.val < sx.val)) := by
  have hcid := gtRec_ok_cid h
  unfold gtRec at h
  rw [if_neg (by simp [hcid])] at h
  by_cases h1 : y.timestamp < x.timestamp
  · rw [if_pos h1] at h
    simp only [Except.ok.injEq] at h
    subst h
    simp [h1]
  · rw [if_neg h1] at h
    by_cases h2 : y.timestamp ≤ x.timestamp
    · have heq : x.timestamp = y.timestamp := le_antisymm (not_lt.mp h1) h2
      rw [if_pos h2] at h
      cases hx : x.ocm_state with
      | none => rw [hx] at h; cases hy : y.ocm_state <;> rw [hy] at h <;> simp at h
      | some sx =>
        cases hy : y.ocm_state with
        | none => rw [hx, hy] at h; simp at h
        | some sy =>
          rw [hx, hy] at h
          simp only [Except.ok.injEq] at h
          subst h
          constructor
          · intro hd
            exact Or.inr ⟨heq, sx, sy, rfl, rfl, by simpa using hd⟩
          · rintro (hlt | ⟨-, sx', sy', hx', hy', hval⟩)
            · exact absurd hlt h1
            · rw [Option.some.injEq] at hx' hy'
              subst hx'; subst hy'
              simpa using hval
    · rw [if_neg h2] at h
      simp only [Except.ok.injEq] at h
      subst h
      constructor
      · intro hf; exact absurd hf (by simp)
      · rintro (hlt | ⟨heq, -⟩)
        · exact absurd hlt h1
        · exact absurd (le_of_eq heq.symm) h2

theorem gtRec_asymm {x y : ClusterVerifierRecord}
    (h : x.gtRec y = .ok true) : y.gtRec x = .ok false := by
  have hcid := gtRec_ok_cid h
  have hcond := (gtRec_ok_true_iff h).mp rfl
  unfold gtRec
  rw [if_neg (by simp [hcid.symm])]
  rcases hcond with hlt | ⟨heq, sx, sy, hx, hy, hval⟩
  · rw [if_neg (not_lt.mpr hlt.le), if_neg (not_le.mpr hlt)]
  · rw [if_neg (by rw [heq]; exact lt_irrefl _), if_pos (le_of_eq heq), hx, hy]
    simp
    omega

theorem isSome_state_not_incomplete {x : ClusterVerifierRecord}
    (h : x.ocm_state.isSome) : x.is_incomplete = false := by
  unfold is_incomplete
  rcases Option.isSome_iff_exists.mp h with ⟨s, hs⟩
  simp [hs]

/-- Records produced by the constructor (and, as proved below, preserved by
the merge): an incomplete record has accumulated no reached states. -/
def InvOk (r : ClusterVerifierRecord) : Prop :=
  r.is_incomplete = true → r.reached_states = ∅

theorem add_ok_char {a b m : ClusterVerifierRecord} (h : a.add b = .ok m) :
    ∃ bv, b.gtRec a = .ok bv ∧ m = mergeResult a b bv := by
  cases hgt : b.gtRec a with
  | error e => simp [add, hgt] at h
  | ok bv =>
    refine ⟨bv, rfl, ?_⟩
    unfold add at h
    rw [hgt] at h
    exact (Except.ok.inj h).symm

theorem mergeResult_cid {a b : ClusterVerifierRecord} (hcid : b.cid = a.cid)
    (bv : Bool) : (mergeResult a b bv).cid = a.cid := by
  unfold mergeResult
  cases bv <;> dsimp <;> split <;> simp [hcid]

theorem mergeResult_timestamp {a b : ClusterVerifierRecord} {bv : Bool}
    (h : b.gtRec a = .ok bv) :
    (mergeResult a b bv).timestamp = max a.timestamp b.timestamp := by
  cases bv with
  | false =>
    have hle : b.timestamp ≤ a.timestamp := gtRec_ok_false_le h
    unfold mergeResult
    dsimp
    split <;> simp [max_eq_left hle]
  | true =>
    have hle : a.timestamp ≤ b.timestamp := gtRec_ok_true_le h
    unfold mergeResult
    dsimp
    split <;> simp [max_eq_right hle]

theorem mergeResult_is_incomplete_suspect {l : ClusterVerifierRecord} {t : Int} :
    ({ l with suspect_deleted := true, timestamp := t } :
      ClusterVerifierRecord).is_incomplete = l.is_incomplete := by
  simp [is_incomplete]

theorem mergeResult_reached {a b : ClusterVerifierRecord} (bv : Bool)
    (ha : InvOk a) (hb : InvOk b) :
    (mergeResult a b bv).reached_states = a.reached_states ∪ b.reached_states ∧
      InvOk (mergeResult a b bv) := by
  unfold mergeResult
  cases bv with
  | false =>
    dsimp
    by_cases hc : (a.is_incomplete && !b.is_incomplete) = true
    · rw [if_pos hc]
      obtain ⟨hga, hbe⟩ : a.is_incomplete = true ∧ b.is_incomplete = false := by
        simpa using hc
      constructor
      · rw [ha hga]
        simp
      · intro hcontra
        rw [mergeResult_is_incomplete_suspect, hbe] at hcontra
        simp at hcontra
    · rw [if_neg hc]
      constructor
      · simp [Finset.union_comm]
      · intro hcontra
        have hra : a.is_incomplete = true := by
          have : ({ a with
              reached_states := a.reached_states ∪ b.reached_states,
              hostedcluster_cache := a.hostedcluster_cache.orElse fun _ => b.hostedcluster_cache,
              organization_id_cache := a.organization_id_cache.orElse fun _ => b.organization_id_cache,
              desc_cache := a.desc_cache.orElse fun _ => b.desc_cache,
              subnet_id_set_cache := a.subnet_id_set_cache.orElse fun _ => b.subnet_id_set_cache } :
            ClusterVerifierRecord).is_incomplete = a.is_incomplete := by
            simp [is_incomplete]
          rw [this] at hcontra
          exact hcontra
        have hrb : b.is_incomplete = true := by
          cases hbi : b.is_incomplete
          · exfalso
            exact hc (by simp [hra, hbi])
          · rfl
        have : (({ a with
            reached_states := a.reached_states ∪ b.reached_states,
            hostedcluster_cache := a.hostedcluster_cache.orElse fun _ => b.hostedcluster_cache,
            organization_id_cache := a.organization_id_cache.orElse fun _ => b.organization_id_cache,
            desc_cache := a.desc_cache.orElse fun _ => b.desc_cache,
            subnet_id_set_cache := a.subnet_id_set_cache.orElse fun _ => b.subnet_id_set_cache } :
          ClusterVerifierRecord)).reached_states = a.reached_states ∪ b.reached_states := rfl
        rw [this, ha hra, hb hrb]
        simp
  | true =>
    dsimp
    by_cases hc : (b.is_incomplete && !a.is_incomplete) = true
    · rw [if_pos hc]
      obtain ⟨hgb, hae⟩ : b.is_incomplete = true ∧ a.is_incomplete = false := by
        simpa using hc
      constructor
      · rw [hb hgb]
        simp
      · intro hcontra
        rw [mergeResult_is_incomplete_suspect, hae] at hcontra
        simp at hcontra
    · rw [if_neg hc]
      constructor
      · simp [Finset.union_comm]
      · intro hcontra
        have hrb : b.is_incomplete = true := by
          have : ({ b with
              reached_states := b.reached_states ∪ a.reached_states,
              hostedcluster_cache := b.hostedcluster_cache.orElse fun _ => a.hostedcluster_cache,
              organization_id_cache := b.organization_id_cache.orElse fun _ => a.organization_id_cache,
              desc_cache := b.desc_cache.orElse fun _ => a.desc_cache,
              subnet_id_set_cache := b.subnet_id_set_cache.orElse fun _ => a.subnet_id_set_cache } :
            ClusterVerifierRecord).is_incomplete = b.is_incomplete := by
            simp [is_incomplete]
          rw [this] at hcontra
          exact hcontra
        have hra : a.is_incomplete = true := by
          cases hai : a.is_incomplete
          · exfalso
            exact hc (by simp [hrb, hai])
          · rfl
        have : (({ b with
            reached_states := b.reached_states ∪ a.reached_states,
            hostedcluster_cache := b.hostedcluster_cache.orElse fun _ => a.hostedcluster_cache,
            organization_id_cache := b.organization_id_cache.orElse fun _ => a.organization_id_cache,
            desc_cache := b.desc_cache.orElse fun _ => a.desc_cache,
            subnet_id_set_cache := b.subnet_id_set_cache.orElse fun _ => a.subnet_id_set_cache } :
          ClusterVerifierRecord)).reached_states = b.reached_states ∪ a.reached_states := rfl
        rw [this, ha hra, hb hrb]
        simp

/-- The bundle of merge facts used for commutativity, associativity and
order-invariant folding. -/
theorem add_ok_facts {a b m : ClusterVerifierRecord}
    (ha : InvOk a) (hb : InvOk b) (h : a.add b = .ok m) :
    m.cid = a.cid ∧ b.cid = a.cid ∧
      m.timestamp = max a.timestamp b.timestamp ∧
      m.reached_states = a.reached_states ∪ b.reached_states ∧ InvOk m := by
  obtain ⟨bv, hgt, hm⟩ := add_ok_char h
  have hcid : b.cid = a.cid := gtRec_ok_cid hgt
  obtain ⟨hru, hinv⟩ := mergeResult_reached bv ha hb (a := a) (b := b)
  subst hm
  exact ⟨mergeResult_cid hcid bv, hcid, mergeResult_timestamp hgt, hru, hinv⟩

theorem add_comm_fields {a b m m' : ClusterVerifierRecord}
    (h1 : a.add b = .ok m) (h2 : b.add a = .ok m') :
    m.cid = m'.cid ∧ m.timestamp = m'.timestamp ∧
      m.reached_states = m'.reached_states := by
  obtain ⟨bv1, hgt1, hm1⟩ := add_ok_char h1
  obtain ⟨bv2, hgt2, hm2⟩ := add_ok_char h2
  cases bv1 with
  | true =>
    cases bv2 with
    | true =>
      have := gtRec_asymm hgt1
      rw [hgt2] at this
      simp at this
    | false =>
      subst hm1; subst hm2
      have hsame : mergeResult a b true = mergeResult b a false := rfl
      rw [hsame]
      exact ⟨rfl, rfl, rfl⟩
  | false =>
    cases bv2 with
    | true =>
      subst hm1; subst hm2
      have hsame : mergeResult a b false = mergeResult b a true := rfl
      rw [hsame]
      exact ⟨rfl, rfl, rfl⟩
    | false =>
      have hle1 := gtRec_ok_false_le hgt1
      have hle2 := gtRec_ok_false_le hgt2
      have heq : a.timestamp = b.timestamp := le_antisymm hle2 hle1
      obtain ⟨hbs, has⟩ := gtRec_ok_ts_eq_states hgt1 heq.symm
      have hainc := isSome_state_not_incomplete has
      have hbinc := isSome_state_not_incomplete hbs
      have hcid : b.cid = a.cid := gtRec_ok_cid hgt1
      subst hm1; subst hm2
      unfold mergeResult
      dsimp
      rw [if_neg (by simp [hainc]), if_neg (by simp [hbinc])]
      exact ⟨hcid.symm, heq, Finset.union_comm _ _⟩

/-- Folding a run of records into an accumulator with `__add__`, as the
ingestion loop does one row at a time. -/
def foldAdd : ClusterVerifierRecord → List ClusterVerifierRecord →
    Except PyErr ClusterVerifierRecord
  | init, [] => .ok init
  | init, r :: t =>
    match init.add r with
    | .error e => .error e
    | .ok m => foldAdd m t

theorem foldAdd_char {l : List ClusterVerifierRecord} :
    ∀ {init m : ClusterVerifierRecord}, InvOk init → (∀ r ∈ l, InvOk r) →
      foldAdd init l = .ok m →
      m.cid = init.cid ∧
        m.timestamp = l.foldl (fun t r => max t r.timestamp) init.timestamp ∧
        m.reached_states =
          l.foldl (fun s r => s ∪ r.reached_states) init.reached_states := by
  induction l with
  | nil =>
    intro init m _ _ h
    unfold foldAdd at h
    obtain rfl := Except.ok.inj h
    simp
  | cons r t ih =>
    intro init m hinv hl h
    unfold foldAdd at h
    cases hadd : init.add r with
    | error e => rw [hadd] at h; simp at h
    | ok x =>
      rw [hadd] at h
      dsimp only at h
      obtain ⟨hc, _, ht, hr, hinvx⟩ :=
        add_ok_facts hinv (hl r (List.mem_cons_self r t)) hadd
      obtain ⟨ic, it, irch⟩ :=
        ih hinvx (fun r' hr' => hl r' (List.mem_cons_of_mem _ hr')) h
      refine ⟨ic.trans hc, ?_, ?_⟩
      · rw [List.foldl_cons, it, ht]
      · rw [List.foldl_cons, irch, hr]

end ClusterVerifierRecord

/-! ## Claims -/

/-- Concrete inputs for claim C1: a record in the apparent-false-positive
configuration and a log store serving one log file with one blocked
force-failure endpoint. -/
def recC1 : ClusterVerifierRecord :=
  .init 0 "c1" (some "web") (some .READY) (some [.FAILED]) none none none none

def worldC1 : FetchWorld :=
  { fetchLogs := .ok [⟨["inputs1.osdsecuritylogs.splunkcloud.com:9997"], []⟩],
    fetchDesc := .error .jsonDecodeError,
    fetchSubscription := fun _ => .error .transportError }

/-- C1: for every record that is complete, has non-empty `reached_states` and
a non-empty `in_flight_check_states` list (and whose log fetch, when the
apparent-false-positive branch needs it, succeeds), `get_outcome` returns
exactly the outcome of the spec's ordered first-match-wins decision
procedure. -/
theorem claim_C1_outcome_matches_spec_procedure
    (r : ClusterVerifierRecord) (w : FetchWorld) (logs : List LogFile)
    (ifs : List InFlightState)
    (hc : r.is_incomplete = false) (hr : r.reached_states ≠ ∅)
    (hi : r.ocm_inflight_states = some ifs) (hne : ifs ≠ [])
    (hw : w.fetchLogs = .ok logs) :
    r.get_outcome w = .ok (some (specDecisionProcedure r.reached_states ifs
      (egressFailuresOf logs) (errorsOf logs))) := by
  have hcard : r.reached_states.card ≠ 0 := by
    simpa [Finset.card_eq_zero] using hr
  have hlen : ifs.length ≠ 0 := by
    simpa [List.length_eq_zero] using hne
  by_cases hR : OCMState.READY ∈ r.reached_states <;>
    by_cases hP : InFlightState.PASSED ∈ ifs <;>
      simp [ClusterVerifierRecord.get_outcome, specDecisionProcedure, hc, hi,
        hw, hcard, hlen, hR, hP, Finset.card_pos] <;>
    split_ifs <;> simp

/-- Witness for C1 at the concrete inputs above. -/
theorem claim_C1_witness :
    recC1.get_outcome worldC1 =
      .ok (some (specDecisionProcedure recC1.reached_states [.FAILED]
        (egressFailuresOf [⟨["inputs1.osdsecuritylogs.splunkcloud.com:9997"], []⟩])
        (errorsOf [⟨["inputs1.osdsecuritylogs.splunkcloud.com:9997"], []⟩]))) :=
  claim_C1_outcome_matches_spec_procedure recC1 worldC1
    [⟨["inputs1.osdsecuritylogs.splunkcloud.com:9997"], []⟩] [.FAILED]
    (by decide) (by decide) rfl (by decide) rfl

/-- Concrete inputs for claim C2: a record that is not incomplete (it has a
name and a lifecycle state) with non-empty `reached_states` but with
`ocm_inflight_states` absent. -/
def recC2 : ClusterVerifierRecord :=
  .init 0 "c2" (some "web") (some .READY) none none none none none

/-- An incomplete record for the C2 witness. -/
def recC2_incomplete : ClusterVerifierRecord :=
  .init 0 "c2" none none none none none none none

/-- A record with an empty in-flight list for the C2 witness. -/
def recC2_empty_inflight : ClusterVerifierRecord :=
  .init 0 "c2" (some "web") (some .READY) (some []) none none none none

def worldC2 : FetchWorld :=
  { fetchLogs := .ok [],
    fetchDesc := .error .jsonDecodeError,
    fetchSubscription := fun _ => .error .transportError }

/-- Counterexample to C2: a record that is not incomplete and has non-empty
`reached_states` but whose `in_flight_check_states` is absent makes
`get_outcome` raise `TypeError` (Python evaluates `len(None)`), instead of
returning Indeterminate as the claim states. -/
theorem claim_C2_counterexample :
    recC2.is_incomplete = false ∧ recC2.reached_states ≠ ∅ ∧
      recC2.ocm_inflight_states = none ∧
      recC2.get_outcome worldC2 = .error .typeError := by
  refine ⟨by decide, by decide, rfl, by decide⟩

/-- C2 as amended: `get_outcome` returns Indeterminate (`None`) when the
record is incomplete, or `reached_states` is empty, or
`in_flight_check_states` is the empty list; but when `in_flight_check_states`
is absent (`None`) and the record is not incomplete and `reached_states` is
non-empty, it raises `TypeError` instead of returning. -/
theorem claim_C2_amended_guard_behaviour
    (r : ClusterVerifierRecord) (w : FetchWorld) :
    (r.is_incomplete = true → r.get_outcome w = .ok none) ∧
    (r.reached_states = ∅ → r.get_outcome w = .ok none) ∧
    (r.ocm_inflight_states = some [] → r.get_outcome w = .ok none) ∧
    (r.is_incomplete = false → r.reached_states ≠ ∅ →
      r.ocm_inflight_states = none → r.get_outcome w = .error .typeError) := by
  refine ⟨?_, ?_, ?_, ?_⟩
  · intro h
    simp [ClusterVerifierRecord.get_outcome, h]
  · intro h
    by_cases hinc : r.is_incomplete <;>
      simp [ClusterVerifierRecord.get_outcome, hinc, h]
  · intro h
    have hninc : r.is_incomplete = false := by
      unfold ClusterVerifierRecord.is_incomplete
      simp [h]
    by_cases hcard : r.reached_states.card = 0 <;>
      simp [ClusterVerifierRecord.get_outcome, hninc, hcard, h]
  · intro h1 h2 h3
    have hcard : r.reached_states.card ≠ 0 := by
      simpa [Finset.card_eq_zero] using h2
    simp [ClusterVerifierRecord.get_outcome, h1, hcard, h3]

/-- Witness for the amended C2 at concrete records. -/
theorem claim_C2_witness :
    recC2_incomplete.get_outcome worldC2 = .ok none ∧
      recC2_empty_inflight.get_outcome worldC2 = .ok none ∧
      recC2.get_outcome worldC2 = .error .typeError :=
  ⟨(claim_C2_amended_guard_behaviour recC2_incomplete worldC2).1 (by decide),
   (claim_C2_amended_guard_behaviour recC2_empty_inflight worldC2).2.2.1 rfl,
   (claim_C2_amended_guard_behaviour recC2 worldC2).2.2.2 (by decide) (by decide) rfl⟩

/-- Concrete inputs for claim C3: an apparent-false-positive record whose log
store fails every fetch with a transport error. -/
def recC3 : ClusterVerifierRecord :=
  .init 0 "c3" (some "web") (some .READY) (some [.FAILED]) none none none none

def worldC3 : FetchWorld :=
  { fetchLogs := .error .transportError,
    fetchDesc := .error .transportError,
    fetchSubscription := fun _ => .error .transportError }

/-- A second failing log store, used by the C3 witness. -/
def worldC3' : FetchWorld :=
  { fetchLogs := .error .jsonDecodeError,
    fetchDesc := .error .transportError,
    fetchSubscription := fun _ => .error .transportError }

/-- Counterexample to C3: a record in the apparent-false-positive case whose
log fetch fails makes `get_outcome` propagate the fetch error to its caller
instead of degrading to FALSE_POSITIVE. -/
theorem claim_C3_counterexample :
    recC3.get_outcome worldC3 = .error .transportError ∧
      recC3.get_outcome worldC3 ≠ .ok (some .FALSE_POSITIVE) := by
  refine ⟨by decide, by decide⟩

/-- C3 as amended: a fetch failure during classification is NOT caught —
in the apparent-false-positive case (the only one that fetches), a failing
log fetch makes `get_outcome` raise that same error to its caller. -/
theorem claim_C3_amended_fetch_failure_propagates
    (r : ClusterVerifierRecord) (w : FetchWorld) (ifs : List InFlightState)
    (e : PyErr)
    (hc : r.is_incomplete = false) (hr : r.reached_states ≠ ∅)
    (hi : r.ocm_inflight_states = some ifs) (hne : ifs ≠ [])
    (hR : OCMState.READY ∈ r.reached_states)
    (hP : InFlightState.PASSED ∉ ifs)
    (hw : w.fetchLogs = .error e) :
    r.get_outcome w = .error e := by
  have hcard : r.reached_states.card ≠ 0 := by
    simpa [Finset.card_eq_zero] using hr
  have hlen : ifs.length ≠ 0 := by
    simpa [List.length_eq_zero] using hne
  simp [ClusterVerifierRecord.get_outcome, hc, hi, hw, hcard, hlen, hR, hP]

/-- Witness for the amended C3 at a concrete record and failing store. -/
theorem claim_C3_witness :
    recC3.get_outcome worldC3' = .error .jsonDecodeError :=
  claim_C3_amended_fetch_failure_propagates recC3 worldC3' [.FAILED]
    .jsonDecodeError (by decide) (by decide) rfl (by decide) (by decide)
    (by decide) rfl

/-- Concrete inputs for claim C5: two records sharing a cluster ID with equal
timestamps and absent lifecycle states. -/
def recC5a : ClusterVerifierRecord :=
  .init 0 "c5" (some "alpha") none (some [.PASSED]) none none none none

def recC5b : ClusterVerifierRecord :=
  .init 0 "c5" (some "beta") none (some [.PASSED]) none none none none

/-- A cross-cluster record for the C5 witness. -/
def recC5other : ClusterVerifierRecord :=
  .init 5 "other" (some "gamma") (some .ERROR) none none none none none

/-- A pair of comparable records for the C5 witness. -/
def recC5c : ClusterVerifierRecord :=
  .init 3 "c5" (some "alpha") (some .READY) none none none none none

def recC5d : ClusterVerifierRecord :=
  .init 2 "c5" (some "beta") (some .INSTALLING) none none none none none

/-- Counterexample to C5: the ordering is NOT defined for every pair of
records sharing a cluster_id — two same-ID records with equal timestamps and
absent lifecycle states make `__gt__` raise `ArithmeticError`. -/
theorem claim_C5_counterexample :
    recC5a.cid = recC5b.cid ∧
      recC5a.gtRec recC5b = .error .arithmeticError := by
  refine ⟨rfl, by decide⟩

/-- C5 as amended: `__gt__` succeeds exactly on the claimed condition
(later timestamp, or equal timestamps and strictly higher lifecycle rank),
is irreflexive and asymmetric where defined, raises on differing cluster IDs,
and is defined for a same-ID pair whenever the timestamps differ or both
lifecycle states are present — but NOT for every same-ID pair. -/
theorem claim_C5_amended_ordering_properties :
    (∀ x y : ClusterVerifierRecord, ∀ bv : Bool, x.gtRec y = .ok bv →
      (bv = true ↔ (y.timestamp < x.timestamp ∨
        (x.timestamp = y.timestamp ∧ ∃ sx sy, x.ocm_state = some sx ∧
          y.ocm_state = some sy ∧ sy.val < sx.val)))) ∧
    (∀ x : ClusterVerifierRecord, ∀ bv : Bool, x.gtRec x = .ok bv → bv = false) ∧
    (∀ x y : ClusterVerifierRecord, x.gtRec y = .ok true → y.gtRec x = .ok false) ∧
    (∀ x y : ClusterVerifierRecord, x.cid = y.cid →
      (x.timestamp ≠ y.timestamp ∨ (x.ocm_state.isSome ∧ y.ocm_state.isSome)) →
      ∃ bv, x.gtRec y = .ok bv) ∧
    (∀ x y : ClusterVerifierRecord, x.cid ≠ y.cid →
      x.gtRec y = .error .arithmeticError) := by
  refine ⟨fun x y bv h => ClusterVerifierRecord.gtRec_ok_true_iff h,
    ?_, fun x y h => ClusterVerifierRecord.gtRec_asymm h, ?_, ?_⟩
  · intro x bv h
    cases bv with
    | false => rfl
    | true =>
      rcases (ClusterVerifierRecord.gtRec_ok_true_iff h).mp rfl with
        hlt | ⟨-, sx, sy, hx, hy, hval⟩
      · exact absurd hlt (lt_irrefl _)
      · rw [hx] at hy
        rw [Option.some.injEq] at hy
        subst hy
        exact absurd hval (lt_irrefl _)
  · intro x y hcid hcase
    unfold ClusterVerifierRecord.gtRec
    rw [if_neg (by simp [hcid])]
    by_cases h1 : y.timestamp < x.timestamp
    · exact ⟨true, by rw [if_pos h1]⟩
    · by_cases h2 : y.timestamp ≤ x.timestamp
      · have heq : x.timestamp = y.timestamp := le_antisymm (not_lt.mp h1) h2
        rcases hcase with hne | ⟨hx, hy⟩
        · exact absurd heq hne
        · obtain ⟨sx, hsx⟩ := Option.isSome_iff_exists.mp hx
          obtain ⟨sy, hsy⟩ := Option.isSome_iff_exists.mp hy
          rw [if_neg h1, if_pos h2, hsx, hsy]
          exact ⟨_, rfl⟩
      · exact ⟨false, by rw [if_neg h1, if_neg h2]⟩
  · intro x y h
    simp [ClusterVerifierRecord.gtRec, h]

/-- Witness for the amended C5 at concrete records: a strict comparison both
ways, a cross-ID error, and definedness of a same-ID comparison. -/
theorem claim_C5_witness :
    recC5c.gtRec recC5d = .ok true ∧
      recC5d.gtRec recC5c = .ok false ∧
      recC5c.gtRec recC5other = .error .arithmeticError ∧
      (∃ bv, recC5c.gtRec recC5d = .ok bv) := by
  have hchar := claim_C5_amended_ordering_properties
  have h1 : recC5c.gtRec recC5d = .ok true := by decide
  refine ⟨h1, hchar.2.2.1 recC5c recC5d h1,
    hchar.2.2.2.2 recC5c recC5other (by decide),
    hchar.2.2.2.1 recC5c recC5d rfl (Or.inl (by decide))⟩

/-- Concrete inputs for claims C6 and C10: a complete older record and an
incomplete newer observation of the same cluster, with caches populated on
the lesser record so the frame condition is visible. -/
def recC6lesser : ClusterVerifierRecord :=
  { timestamp := 1
    cid := "c6"
    cname := some "web"
    ocm_state := some .READY
    ocm_inflight_states := some [.PASSED]
    found_verifier_s3_logs := some true
    found_all_tests_passed := some false
    found_egress_failures := none
    log_download_url := some "https://logs.example.com/c6/"
    reached_states := {OCMState.INSTALLING, OCMState.READY}
    suspect_deleted := false
    desc_cache := some ⟨some "/api/sub/1", some ["subnet-1"], some false⟩
    hostedcluster_cache := some false
    organization_id_cache := some "org-1"
    subnet_id_set_cache := some {"subnet-1"} }

def recC6greater : ClusterVerifierRecord :=
  .init 9 "c6" none none none none none none none

/-- C6: when the greater record (by the ordering rule) is incomplete and the
lesser is not, the merge returns the lesser record with `suspect_deleted` set
and its timestamp advanced to the greater record's timestamp. -/
theorem claim_C6_suspect_deleted_branch
    (a b : ClusterVerifierRecord) (bv : Bool)
    (h : b.gtRec a = .ok bv)
    (hg : (if bv then b else a).is_incomplete = true)
    (hl : (if bv then a else b).is_incomplete = false) :
    a.add b = .ok { (if bv then a else b) with
      suspect_deleted := true,
      timestamp := (if bv then b else a).timestamp } := by
  unfold ClusterVerifierRecord.add
  rw [h]
  dsimp only
  unfold ClusterVerifierRecord.mergeResult
  dsimp only
  rw [if_pos (by simp [hg, hl])]

/-- Witness for C6: merging the concrete pair lands in the suspect-deleted
branch and returns the lesser record, tagged and time-advanced. -/
theorem claim_C6_witness :
    recC6lesser.add recC6greater =
      .ok { (if true then recC6lesser else recC6greater) with
        suspect_deleted := true,
        timestamp := (if true then recC6greater else recC6lesser).timestamp } :=
  claim_C6_suspect_deleted_branch recC6lesser recC6greater true (by decide)
    (by decide) (by decide)

/-- C10: in the suspect-deleted branch of the merge, every field of the
result other than `suspect_deleted` and `timestamp` is exactly the lesser
record's: `reached_states` is not unioned and none of the cached fields are
backfilled from the greater record. -/
theorem claim_C10_suspect_branch_frame
    (a b m : ClusterVerifierRecord) (bv : Bool)
    (h : b.gtRec a = .ok bv)
    (hg : (if bv then b else a).is_incomplete = true)
    (hl : (if bv then a else b).is_incomplete = false)
    (hm : a.add b = .ok m) :
    m.cid = (if bv then a else b).cid ∧
      m.cname = (if bv then a else b).cname ∧
      m.ocm_state = (if bv then a else b).ocm_state ∧
      m.ocm_inflight_states = (if bv then a else b).ocm_inflight_states ∧
      m.found_verifier_s3_logs = (if bv then a else b).found_verifier_s3_logs ∧
      m.found_all_tests_passed = (if bv then a else b).found_all_tests_passed ∧
      m.found_egress_failures = (if bv then a else b).found_egress_failures ∧
      m.log_download_url = (if bv then a else b).log_download_url ∧
      m.reached_states = (if bv then a else b).reached_states ∧
      m.desc_cache = (if bv then a else b).desc_cache ∧
      m.hostedcluster_cache = (if bv then a else b).hostedcluster_cache ∧
      m.organization_id_cache = (if bv then a else b).organization_id_cache ∧
      m.subnet_id_set_cache = (if bv then a else b).subnet_id_set_cache := by
  unfold ClusterVerifierRecord.add at hm
  rw [h] at hm
  dsimp only at hm
  unfold ClusterVerifierRecord.mergeResult at hm
  rw [if_pos (by simp [hg, hl])] at hm
  obtain rfl := (Except.ok.inj hm).symm
  exact ⟨rfl, rfl, rfl, rfl, rfl, rfl, rfl, rfl, rfl, rfl, rfl, rfl, rfl⟩

/-- Witness for C10 at the concrete pair: all non-`suspect_deleted`,
non-`timestamp` fields of the merge result equal the lesser record's. -/
theorem claim_C10_witness :
    ∃ m, recC6lesser.add recC6greater = .ok m ∧
      m.reached_states = (if true then recC6lesser else recC6greater).reached_states ∧
      m.desc_cache = (if true then recC6lesser else recC6greater).desc_cache ∧
      m.organization_id_cache =
        (if true then recC6lesser else recC6greater).organization_id_cache := by
  have hm : recC6lesser.add recC6greater =
      .ok { recC6lesser with suspect_deleted := true, timestamp := (9 : Int) } := by
    decide
  have hall := claim_C10_suspect_branch_frame recC6lesser recC6greater
    { recC6lesser with suspect_deleted := true, timestamp := (9 : Int) } true
    (by decide) (by decide) (by decide) hm
  exact ⟨_, hm, hall.2.2.2.2.2.2.2.2.1, hall.2.2.2.2.2.2.2.2.2.1,
    hall.2.2.2.2.2.2.2.2.2.2.2.1⟩

/-- Concrete inputs for claim C7: a freshly constructed record (all caches
empty) and description-document fetch behaviours. -/
def recC7 : ClusterVerifierRecord :=
  .init 0 "c7" (some "web") (some .READY) (some [.PASSED]) none none none
    (some "https://logs.example.com/c7/")

/-- A log store whose description document is missing/malformed (the fetch
raises `JSONDecodeError`). -/
def worldC7bad : ClusterVerifierRecord → FetchWorld := fun _ =>
  { fetchLogs := .ok [],
    fetchDesc := .error .jsonDecodeError,
    fetchSubscription := fun _ => .error .transportError }

/-- A log store whose description document parses but lacks the `aws`,
`hypershift` and `subscription` keys. -/
def worldC7sparse : FetchWorld :=
  { fetchLogs := .ok [],
    fetchDesc := .ok ⟨none, none, none⟩,
    fetchSubscription := fun _ => .error .transportError }

/-- Counterexample to C7: on a malformed/missing description document,
`get_organization_id` raises (it propagates the `JSONDecodeError` of
`__download_desc`, which is called before the `try` block) instead of
returning the unknown value `None`; the parallel sparse-document failure is
re-raised as `ValueError`. -/
theorem claim_C7_counterexample :
    recC7.get_organization_id (worldC7bad recC7) = .error .jsonDecodeError ∧
      recC7.get_organization_id worldC7sparse = .error .valueError := by
  refine ⟨by decide, by decide⟩

/-- C7 as amended: `get_subnet_id_set` and `is_hostedcluster` return the
unknown value `None` on a parse failure of the description document
(malformed/missing document, or missing keys) rather than raising, but
`get_organization_id` raises on every such failure: the raw fetch error when
`__download_desc` fails, and `ValueError` when the subscription link is
missing. -/
theorem claim_C7_amended_aux_queries (r : ClusterVerifierRecord) (w : FetchWorld) :
    (r.subnet_id_set_cache = none → r.desc_cache = none →
      w.fetchDesc = .error .jsonDecodeError → r.get_subnet_id_set w = .ok none) ∧
    (r.hostedcluster_cache = none → r.desc_cache = none →
      w.fetchDesc = .error .jsonDecodeError → r.is_hostedcluster w = .ok none) ∧
    (∀ d, r.subnet_id_set_cache = none → r.desc_cache = none →
      w.fetchDesc = .ok d → d.aws_subnet_ids = none →
      r.get_subnet_id_set w = .ok none) ∧
    (∀ d, r.hostedcluster_cache = none → r.desc_cache = none →
      w.fetchDesc = .ok d → d.hypershift_enabled = none →
      r.is_hostedcluster w = .ok none) ∧
    (∀ e, r.organization_id_cache = none → r.desc_cache = none →
      w.fetchDesc = .error e → r.get_organization_id w = .error e) ∧
    (∀ d, r.organization_id_cache = none → r.desc_cache = none →
      w.fetchDesc = .ok d → d.subscription_href = none →
      r.get_organization_id w = .error .valueError) := by
  refine ⟨?_, ?_, ?_, ?_, ?_, ?_⟩
  · intro h1 h2 h3
    simp [ClusterVerifierRecord.get_subnet_id_set,
      ClusterVerifierRecord.download_desc, h1, h2, h3]
  · intro h1 h2 h3
    simp [ClusterVerifierRecord.is_hostedcluster,
      ClusterVerifierRecord.download_desc, h1, h2, h3]
  · intro d h1 h2 h3 h4
    simp [ClusterVerifierRecord.get_subnet_id_set,
      ClusterVerifierRecord.download_desc, h1, h2, h3, h4]
  · intro d h1 h2 h3 h4
    simp [ClusterVerifierRecord.is_hostedcluster,
      ClusterVerifierRecord.download_desc, h1, h2, h3, h4]
  · intro e h1 h2 h3
    cases e <;>
      simp [ClusterVerifierRecord.get_organization_id,
        ClusterVerifierRecord.download_desc, h1, h2, h3]
  · intro d h1 h2 h3 h4
    simp [ClusterVerifierRecord.get_organization_id,
      ClusterVerifierRecord.download_desc, h1, h2, h3, h4]

/-- Witness for the amended C7 at the concrete record and stores. -/
theorem claim_C7_witness :
    recC7.get_subnet_id_set (worldC7bad recC7) = .ok none ∧
      recC7.is_hostedcluster (worldC7bad recC7) = .ok none ∧
      recC7.get_subnet_id_set worldC7sparse = .ok none ∧
      recC7.is_hostedcluster worldC7sparse = .ok none ∧
      recC7.get_organization_id (worldC7bad recC7) = .error .jsonDecodeError ∧
      recC7.get_organization_id worldC7sparse = .error .valueError :=
  ⟨(claim_C7_amended_aux_queries recC7 (worldC7bad recC7)).1 rfl rfl rfl,
   (claim_C7_amended_aux_queries recC7 (worldC7bad recC7)).2.1 rfl rfl rfl,
   (claim_C7_amended_aux_queries recC7 worldC7sparse).2.2.1 ⟨none, none, none⟩
     rfl rfl rfl rfl,
   (claim_C7_amended_aux_queries recC7 worldC7sparse).2.2.2.1 ⟨none, none, none⟩
     rfl rfl rfl rfl,
   (claim_C7_amended_aux_queries recC7 (worldC7bad recC7)).2.2.2.2.1
     .jsonDecodeError rfl rfl rfl,
   (claim_C7_amended_aux_queries recC7 worldC7sparse).2.2.2.2.2 ⟨none, none, none⟩
     rfl rfl rfl rfl⟩

/-- Counterexample to C8: with zero observed false positives and true
negatives (here TP=2, FN=1, so classified records exist), the
false-positive-rate division raises `ZeroDivisionError`, which nothing in the
reporting block catches — no undefined/"N/A" rendering happens. -/
theorem claim_C8_counterexample :
    compute_metrics 2 0 0 1 = .error .zeroDivisionError := by decide

/-- C8 as amended: a zero denominator in the statistics block raises an
uncaught `ZeroDivisionError` (there is no "N/A" path); when the `fpr` and
`precision` denominators are non-zero the three metrics are computed as exact
ratios. -/
theorem claim_C8_amended_metrics (tp tn fp fn : Nat) :
    (fp + tn = 0 → compute_metrics tp tn fp fn = .error .zeroDivisionError) ∧
    (fp + tn ≠ 0 → tp + fp ≠ 0 →
      compute_metrics tp tn fp fn =
        .ok ((fp : ℚ) / ((fp : ℚ) + (tn : ℚ)),
             (tp : ℚ) / ((tp : ℚ) + (fp : ℚ)),
             (fp : ℚ) / ((tp : ℚ) + (tn : ℚ) + (fp : ℚ) + (fn : ℚ)))) := by
  constructor
  · intro h
    simp [compute_metrics, h]
  · intro h1 h2
    have h3 : tp + tn + fp + fn ≠ 0 := by omega
    simp [compute_metrics, h1, h2, h3]

/-- Witness for the amended C8: the zero-denominator case raises, and the
spec's worked example TP=3, TN=5, FP=1, FN=0 computes the three ratios. -/
theorem claim_C8_witness :
    compute_metrics 1 0 0 2 = .error .zeroDivisionError ∧
      compute_metrics 3 5 1 0 =
        .ok (((1 : Nat) : ℚ) / (((1 : Nat) : ℚ) + ((5 : Nat) : ℚ)),
             ((3 : Nat) : ℚ) / (((3 : Nat) : ℚ) + ((1 : Nat) : ℚ)),
             ((1 : Nat) : ℚ) / (((3 : Nat) : ℚ) + ((5 : Nat) : ℚ) +
               ((1 : Nat) : ℚ) + ((0 : Nat) : ℚ))) :=
  ⟨(claim_C8_amended_metrics 1 0 0 2).1 rfl,
   (claim_C8_amended_metrics 3 5 1 0).2 (by decide) (by decide)⟩

/-- Concrete inputs for claim C4: two same-cluster records that tie under the
ordering (equal timestamps, equal lifecycle states) but carry different
cluster names. -/
def recC4a : ClusterVerifierRecord :=
  .init 0 "c4" (some "alpha") (some .READY) (some [.PASSED]) none none none none

def recC4b : ClusterVerifierRecord :=
  .init 0 "c4" (some "beta") (some .READY) (some [.PASSED]) none none none none

/-- A chain of three same-cluster records for the C4 witness. -/
def recC4c : ClusterVerifierRecord :=
  .init 1 "c4" (some "gamma") (some .INSTALLING) (some [.FAILED]) none none none none

def recC4d : ClusterVerifierRecord :=
  .init 2 "c4" (some "delta") (some .READY) (some [.PASSED]) none none none none

def recC4e : ClusterVerifierRecord :=
  .init 3 "c4" (some "epsilon") (some .ERROR) (some [.FAILED]) none none none none

/-- The merge of `recC4c` and `recC4d`. -/
def mC4cd : ClusterVerifierRecord :=
  { recC4d with reached_states := {OCMState.READY, OCMState.INSTALLING} }

/-- The merge of `recC4d` and `recC4e`. -/
def mC4de : ClusterVerifierRecord :=
  { recC4e with reached_states := {OCMState.ERROR, OCMState.READY} }

/-- The merge of all three chain records, folded in the order c, d, e. -/
def mC4all : ClusterVerifierRecord :=
  { recC4e with
    reached_states := {OCMState.ERROR, OCMState.READY, OCMState.INSTALLING} }

/-- The merge of all three chain records, folded in the order c, e, d. -/
def mC4allPerm : ClusterVerifierRecord :=
  { recC4e with
    reached_states := {OCMState.ERROR, OCMState.INSTALLING, OCMState.READY} }

/-- Counterexample to C4: merge is NOT commutative with respect to the final
identifying fields — on an ordering tie the argument order decides which
record survives, so the two merge orders return records with different
`cluster_name`s. -/
theorem claim_C4_counterexample :
    Except.map ClusterVerifierRecord.cname (recC4a.add recC4b) =
        .ok (some "alpha") ∧
      Except.map ClusterVerifierRecord.cname (recC4b.add recC4a) =
        .ok (some "beta") := by
  refine ⟨by decide, by decide⟩

/-- C4 as amended: over records satisfying the constructor invariant (an
incomplete record has no reached states), merge is commutative and
associative — and folds of permuted inputs agree — with respect to the final
`cluster_id`, `timestamp` and `reached_states`, though not with respect to
`cluster_name`. -/
theorem claim_C4_amended_merge_deterministic_fields :
    (∀ a b m m' : ClusterVerifierRecord, a.add b = .ok m → b.add a = .ok m' →
      m.cid = m'.cid ∧ m.timestamp = m'.timestamp ∧
        m.reached_states = m'.reached_states) ∧
    (∀ r1 r2 r3 x y m m' : ClusterVerifierRecord,
      ClusterVerifierRecord.InvOk r1 → ClusterVerifierRecord.InvOk r2 →
      ClusterVerifierRecord.InvOk r3 →
      r1.add r2 = .ok x → x.add r3 = .ok m →
      r2.add r3 = .ok y → r1.add y = .ok m' →
      m.cid = m'.cid ∧ m.timestamp = m'.timestamp ∧
        m.reached_states = m'.reached_states) ∧
    (∀ (first : ClusterVerifierRecord) (l₁ l₂ m m' : _),
      ClusterVerifierRecord.InvOk first →
      (∀ r ∈ l₁, ClusterVerifierRecord.InvOk r) →
      l₁.Perm l₂ →
      ClusterVerifierRecord.foldAdd first l₁ = .ok m →
      ClusterVerifierRecord.foldAdd first l₂ = .ok m' →
      m.cid = m'.cid ∧ m.timestamp = m'.timestamp ∧
        m.reached_states = m'.reached_states) := by
  refine ⟨fun a b m m' h1 h2 => ClusterVerifierRecord.add_comm_fields h1 h2, ?_, ?_⟩
  · intro r1 r2 r3 x y m m' i1 i2 i3 h12 hL h23 hR
    obtain ⟨hc12, -, ht12, hr12, hi12⟩ := ClusterVerifierRecord.add_ok_facts i1 i2 h12
    obtain ⟨hcL, -, htL, hrL, -⟩ := ClusterVerifierRecord.add_ok_facts hi12 i3 hL
    obtain ⟨hc23, -, ht23, hr23, hi23⟩ := ClusterVerifierRecord.add_ok_facts i2 i3 h23
    obtain ⟨hcR, -, htR, hrR, -⟩ := ClusterVerifierRecord.add_ok_facts i1 hi23 hR
    refine ⟨?_, ?_, ?_⟩
    · rw [hcL, hc12, hcR]
    · rw [htL, ht12, htR, ht23, max_assoc]
    · rw [hrL, hr12, hrR, hr23, Finset.union_assoc]
  · intro first l₁ l₂ m m' hinv hl hperm h1 h2
    have hl₂ : ∀ r ∈ l₂, ClusterVerifierRecord.InvOk r := fun r hr =>
      hl r (hperm.mem_iff.mpr hr)
    obtain ⟨hc1, ht1, hr1⟩ := ClusterVerifierRecord.foldAdd_char hinv hl h1
    obtain ⟨hc2, ht2, hr2⟩ := ClusterVerifierRecord.foldAdd_char hinv hl₂ h2
    refine ⟨hc1.trans hc2.symm, ?_, ?_⟩
    · rw [ht1, ht2, hperm.foldl_eq'
        (fun x _ y _ z => Max.right_comm z x.timestamp y.timestamp)
        first.timestamp]
    · rw [hr1, hr2, hperm.foldl_eq'
        (fun x _ y _ z =>
          Finset.union_right_comm z x.reached_states y.reached_states)
        first.reached_states]

/-- Witness for the amended C4: a tie pair whose two merge orders return
different records that still agree on `cid`, `timestamp` and
`reached_states`; an associativity chain; and a permuted fold. -/
theorem claim_C4_witness :
    (recC4a.add recC4b = .ok recC4a ∧ recC4b.add recC4a = .ok recC4b ∧
      (recC4a.cid = recC4b.cid ∧ recC4a.timestamp = recC4b.timestamp ∧
        recC4a.reached_states = recC4b.reached_states)) ∧
    (mC4all.cid = mC4all.cid ∧ mC4all.timestamp = mC4all.timestamp ∧
      mC4all.reached_states = mC4all.reached_states) ∧
    (mC4all.cid = mC4allPerm.cid ∧ mC4all.timestamp = mC4allPerm.timestamp ∧
      mC4all.reached_states = mC4allPerm.reached_states) := by
  have hab : recC4a.add recC4b = .ok recC4a := by decide
  have hba : recC4b.add recC4a = .ok recC4b := by decide
  have hinvc : ClusterVerifierRecord.InvOk recC4c := fun h => absurd h (by decide)
  have hinvd : ClusterVerifierRecord.InvOk recC4d := fun h => absurd h (by decide)
  have hinve : ClusterVerifierRecord.InvOk recC4e := fun h => absurd h (by decide)
  refine ⟨⟨hab, hba,
    claim_C4_amended_merge_deterministic_fields.1 recC4a recC4b recC4a recC4b
      hab hba⟩, ?_, ?_⟩
  · exact claim_C4_amended_merge_deterministic_fields.2.1 recC4c recC4d recC4e
      mC4cd mC4de mC4all mC4all hinvc hinvd hinve (by decide) (by decide)
      (by decide) (by decide)
  · refine claim_C4_amended_merge_deterministic_fields.2.2 recC4c
      [recC4d, recC4e] [recC4e, recC4d] mC4all mC4allPerm hinvc ?_ (by decide)
      (by decide) (by decide)
    intro r hr
    rcases List.mem_cons.mp hr with rfl | hr'
    · exact hinvd
    · rcases List.mem_cons.mp hr' with rfl | hr''
      · exact hinve
      · cases hr''

/-- Unfolding equation for one iteration of the ingestion loop. -/
theorem ingest_cons (p : ParseEnv)
    (cvrs : List (String × ClusterVerifierRecord)) (row : RawRow)
    (rest : List RawRow) :
    ingest p cvrs (row :: rest) =
      match ingest_step p cvrs row with
      | .error e => .error e
      | .ok cvrs' => ingest p cvrs' rest := rfl

/-- A row whose construction fails with `KeyError` makes one loop iteration a
no-op (the `except KeyError` arm warns and continues). -/
theorem ingest_step_skip (p : ParseEnv)
    (cvrs : List (String × ClusterVerifierRecord)) (row : RawRow)
    (h : from_dict p row = .error .keyError) :
    ingest_step p cvrs row = .ok cvrs := by
  simp [ingest_step, h]

/-- A row whose construction fails with anything other than `KeyError`
escapes the loop's handler. -/
theorem ingest_step_abort (p : ParseEnv)
    (cvrs : List (String × ClusterVerifierRecord)) (row : RawRow) (e : PyErr)
    (h : from_dict p row = .error e) (hne : e ≠ .keyError) :
    ingest_step p cvrs row = .error e := by
  cases e <;> first
    | exact absurd rfl hne
    | simp [ingest_step, h]

/-- Deleting a `KeyError` row from anywhere in the input leaves the whole
ingestion unchanged. -/
theorem ingest_skip_middle (p : ParseEnv)
    (cvrs : List (String × ClusterVerifierRecord))
    (pre post : List RawRow) (row : RawRow)
    (h : from_dict p row = .error .keyError) :
    ingest p cvrs (pre ++ row :: post) = ingest p cvrs (pre ++ post) := by
  induction pre generalizing cvrs with
  | nil =>
    simp only [List.nil_append]
    rw [ingest_cons, ingest_step_skip p cvrs row h]
  | cons r t ih =>
    simp only [List.cons_append]
    rw [ingest_cons, ingest_cons]
    cases hstep : ingest_step p cvrs r with
    | error e => rfl
    | ok cvrs' => exact ih cvrs'

/-- Concrete inputs for claim C9: a tiny parse environment, one well-formed
row, one row with a missing column, and one row with an unparseable
timestamp. -/
def pC9 : ParseEnv :=
  { parse_timestamp := fun s =>
      if s = "2024-05-01T00:00:00+00:00" then some 1714521600 else none,
    parse_json_list := fun s =>
      if s = "[\"passed\"]" then some ["passed"] else none,
    is_valid_url := fun s => s = "https://logs.example.com/x/" }

def goodRowC9 : RawRow :=
  { timestamp := some "2024-05-01T00:00:00+00:00"
    cid := some "abc"
    cname := some "web"
    found_verifier_s3_logs := some "TRUE"
    found_all_tests_passed := some "FALSE"
    found_egress_failures := some "NULL"
    ocm_state := some "ready"
    ocm_inflight_states := some "[\"passed\"]"
    log_download_url := some "https://logs.example.com/x/" }

def badKeyRowC9 : RawRow :=
  { goodRowC9 with cname := none }

def badTsRowC9 : RawRow :=
  { goodRowC9 with timestamp := some "garbage" }

/-- Counterexample to C9: a row with an unparseable timestamp raises
`ValueError`, which the ingestion loop's `except KeyError` does not catch —
the whole ingestion aborts instead of skipping the row and continuing (the
remaining well-formed row is processed fine on its own). -/
theorem claim_C9_counterexample :
    from_dict pC9 badTsRowC9 = .error .valueError ∧
      ingest pC9 [] [badTsRowC9, goodRowC9] = .error .valueError ∧
      ingest pC9 [] [goodRowC9] ≠ .error .valueError := by
  refine ⟨by decide, by decide, by decide⟩

/-- C9 as amended: the ingestion loop catches only `KeyError` (missing
column, unrecognized lifecycle-state name): such rows are skipped with a
warning and processing continues, with the same final table as if the row
were absent.  A row failing with any other error — invalid cluster ID,
non-string field, unparseable timestamp, unparseable in-flight JSON, or an
unrecognized in-flight value, all `ValueError`/`JSONDecodeError` — aborts
ingestion, discarding the remaining rows. -/
theorem claim_C9_amended_ingestion_policy :
    (∀ p cvrs row, from_dict p row = .error .keyError →
      ingest_step p cvrs row = .ok cvrs) ∧
    (∀ p cvrs row e, from_dict p row = .error e → e ≠ .keyError →
      ingest_step p cvrs row = .error e) ∧
    (∀ p cvrs pre post row, from_dict p row = .error .keyError →
      ingest p cvrs (pre ++ row :: post) = ingest p cvrs (pre ++ post)) ∧
    (∀ p cvrs post row e, from_dict p row = .error e → e ≠ .keyError →
      ingest p cvrs (row :: post) = .error e) := by
  refine ⟨ingest_step_skip, ingest_step_abort, ingest_skip_middle, ?_⟩
  intro p cvrs post row e h hne
  unfold ingest
  rw [ingest_step_abort p cvrs row e h hne]

/-- Witness for the amended C9 at the concrete rows: the missing-column row
is skipped (ingestion is unchanged), and the bad-timestamp row aborts. -/
theorem claim_C9_witness :
    ingest_step pC9 [] badKeyRowC9 = .ok [] ∧
      ingest pC9 [] [badKeyRowC9, goodRowC9] = ingest pC9 [] [goodRowC9] ∧
      ingest pC9 [] [badTsRowC9, goodRowC9] = .error .valueError :=
  ⟨claim_C9_amended_ingestion_policy.1 pC9 [] badKeyRowC9 (by decide),
   claim_C9_amended_ingestion_policy.2.2.1 pC9 [] [] [goodRowC9] badKeyRowC9
     (by decide),
   claim_C9_amended_ingestion_policy.2.2.2 pC9 [] [goodRowC9] badTsRowC9
     .valueError (by decide) (by decide)⟩
